import Mathlib

/-!
# Verification of the user-searching API

Shallow embedding of `src/app.py` (Flask search endpoint `/users`) and
`src/seed.py` (CSV seed loader), with theorems settling the spec claims.

Modelling conventions:
* Python strings are Lean `String` / `List Char`; numbers parsed from
  strings are exact rationals `ℚ` (standing for the Python floats).
* `float(s)` / `int(s)` are modelled by `pyFloat?` / `pyInt?` on the
  decimal-literal grammar (optional surrounding whitespace, optional sign,
  digits with optional fraction and exponent); the exotic inputs Python
  additionally accepts (`inf`, `nan`, digit underscores) are outside every
  claim and not modelled.
* The database is a pair of lists (`users`, `locations`); the PostgreSQL
  `earthdistance` extension's `earth_distance` is a black box, so the route
  is parametrised by an arbitrary distance function `EarthDist`.
* The HTTP query string is an association list `Args`; Flask's
  `request.args.get(key, default, type=int)` is `getArg` / `getArgInt`.
-/

namespace UserSearch

/-! ## Python string primitives -/

/-- Characters Python's `str.strip()` removes (ASCII whitespace suffices for
the inputs in scope). -/
def pySpace (c : Char) : Bool :=
  c = ' ' ∨ c = '\t' ∨ c = '\n' ∨ c = '\r' ∨ c = '\x0b' ∨ c = '\x0c'

/-- `str.strip()`: drop leading and trailing whitespace. -/
def pyStrip (l : List Char) : List Char :=
  ((l.dropWhile pySpace).reverse.dropWhile pySpace).reverse

def isDigitCh (c : Char) : Bool := '0' ≤ c ∧ c ≤ '9'

/-- Numeric value of a digit string (most significant first). -/
def digitsVal (l : List Char) : ℕ :=
  l.foldl (fun a c => a * 10 + (c.toNat - 48)) 0

/-- Consume an optional leading sign; return (isNegative, rest). -/
def readSign : List Char → Bool × List Char
  | '+' :: r => (false, r)
  | '-' :: r => (true, r)
  | l => (false, l)

/-- Exponent suffix of a Python float literal: empty, or `e`/`E`, optional
sign, then one or more digits consuming the whole rest. -/
def parseExp : List Char → Option ℤ
  | [] => some 0
  | c :: r =>
    if c = 'e' ∨ c = 'E' then
      if (readSign r).2.takeWhile isDigitCh = []
          ∨ (readSign r).2.dropWhile isDigitCh ≠ [] then none
      else some (if (readSign r).1
        then -(digitsVal ((readSign r).2.takeWhile isDigitCh) : ℤ)
        else (digitsVal ((readSign r).2.takeWhile isDigitCh) : ℤ))
    else none

/-- Unsigned part of a Python float literal: `digits [. digits]` or
`. digits`, then an optional exponent, consuming the whole list. -/
def parseUnsigned (l : List Char) : Option ℚ :=
  match l.dropWhile isDigitCh with
  | '.' :: r2 =>
    if l.takeWhile isDigitCh = [] ∧ r2.takeWhile isDigitCh = [] then none
    else
      match parseExp (r2.dropWhile isDigitCh) with
      | some e =>
        some (((digitsVal (l.takeWhile isDigitCh) : ℚ)
            + (digitsVal (r2.takeWhile isDigitCh) : ℚ)
              / (10 : ℚ) ^ (r2.takeWhile isDigitCh).length)
          * (10 : ℚ) ^ e)
      | none => none
  | _ =>
    if l.takeWhile isDigitCh = [] then none
    else
      match parseExp (l.dropWhile isDigitCh) with
      | some e => some ((digitsVal (l.takeWhile isDigitCh) : ℚ) * (10 : ℚ) ^ e)
      | none => none

/-- Python `float(s)` on decimal literals: strip whitespace, optional sign,
unsigned mantissa with optional exponent.  `none` models `ValueError`. -/
def pyFloat? (l : List Char) : Option ℚ :=
  match parseUnsigned (readSign (pyStrip l)).2 with
  | some v => some (if (readSign (pyStrip l)).1 then -v else v)
  | none => none

/-- Python `int(s)`: strip whitespace, optional sign, one or more digits.
`none` models `ValueError`. -/
def pyInt? (l : List Char) : Option ℤ :=
  if (readSign (pyStrip l)).2.takeWhile isDigitCh = []
      ∨ (readSign (pyStrip l)).2.dropWhile isDigitCh ≠ [] then none
  else some (if (readSign (pyStrip l)).1
    then -(digitsVal ((readSign (pyStrip l)).2.takeWhile isDigitCh) : ℤ)
    else (digitsVal ((readSign (pyStrip l)).2.takeWhile isDigitCh) : ℤ))

/-- Python `s.split(sep, maxsplit)` on char lists: `fuel` is the number of
splits still allowed, `acc` the (reversed) current field. -/
def pySplitAux (sep : Char) : List Char → List Char → ℕ → List (List Char)
  | [], acc, _ => [acc.reverse]
  | c :: cs, acc, 0 => pySplitAux sep cs (c :: acc) 0
  | c :: cs, acc, k + 1 =>
    if c = sep then acc.reverse :: pySplitAux sep cs [] k
    else pySplitAux sep cs (c :: acc) (k + 1)

/-- `origin.split(",", 2)` from `app.py`. -/
def splitComma2 (s : String) : List (List Char) :=
  pySplitAux ',' s.data [] 2

/-! ## `parse_lat_lng` (app.py lines 70–96) -/

/-- `parse_lat_lng(origin)`: split on `","` with maxsplit 2, require exactly
two fields, parse each as a float; any failure (`ValueError`) gives `none`
(the code's `(None, None)`). -/
def parse_lat_lng (origin : String) : Option (ℚ × ℚ) :=
  match splitComma2 origin with
  | [a, b] =>
    match pyFloat? a, pyFloat? b with
    | some lat, some lng => some (lat, lng)
    | _, _ => none
  | _ => none

/-! ## Data model (app.py `User`, `Location`) -/

/-- Row of the `users` table. -/
structure DUser where
  id : ℤ
  name : String
  age : ℤ
  gender : String
deriving DecidableEq, Repr

/-- Row of the `locations` table; the `EARTH` point is kept as its
latitude/longitude (the `latitude`/`longitude` column properties). -/
structure DLocation where
  id : ℤ
  user_id : ℤ
  name : String
  latitude : ℚ
  longitude : ℚ
deriving DecidableEq, Repr

/-- Database contents (read-only after seeding). -/
structure DB where
  users : List DUser
  locations : List DLocation
deriving Repr

/-- The `User.locations` relationship: all locations with this user's id. -/
def userLocations (d : DB) (u : DUser) : List DLocation :=
  d.locations.filter (fun l => l.user_id = u.id)

/-- The PostgreSQL `earth_distance` function is external; the route is
parametrised over any point-to-point distance (points as (lat, lng)). -/
abbrev EarthDist : Type := ℚ × ℚ → ℚ × ℚ → ℚ

/-- `MILE_TO_METER` (app.py line 9). -/
def MILE_TO_METER : ℚ := 1609.34

/-! ## Query-string parameters -/

/-- Query string as an association list; Flask's `MultiDict.get` returns the
first value bound to a key. -/
abbrev Args : Type := List (String × String)

/-- `request.args.get(key)`: first value for the key, else `None`. -/
def getArg (args : Args) (k : String) : Option String :=
  (List.find? (fun p => p.1 = k) args).map (fun p => p.2)

/-- `request.args.get(key, type=int)`: `None` when the key is absent or
`int()` fails on its value. -/
def getArgInt (args : Args) (k : String) : Option ℤ :=
  (getArg args k).bind (fun v => pyInt? v.data)

/-- A request identical except that one parameter is deleted (used to state
"behaves as if the parameter were absent"). -/
def removeArg (args : Args) (k : String) : Args :=
  args.filter (fun p => p.1 ≠ k)

/-- The seven parameters the route reads (app.py lines 121–127), with
`limit`/`start` already defaulted to 5/0. -/
structure ParsedParams where
  gender : Option String
  min_age : Option ℤ
  max_age : Option ℤ
  origin : Option String
  dist : Option ℤ
  limit : ℤ
  start : ℤ
deriving Repr

def parseParams (args : Args) : ParsedParams where
  gender := getArg args "gender"
  min_age := getArgInt args "min_age"
  max_age := getArgInt args "max_age"
  origin := getArg args "origin"
  dist := getArgInt args "dist"
  limit := (getArgInt args "limit").getD 5
  start := (getArgInt args "start").getD 0

/-- `if gender:` — the gender filter applies when the parameter is present
and non-empty (Python truthiness of `None`/`""`). -/
def genderFilter (p : ParsedParams) : Option String :=
  match p.gender with
  | some g => if g = "" then none else some g
  | none => none

/-- `if origin and dist is not None:` followed by `parse_lat_lng` and the
`lat is not None` check: the geospatial filter applies when `origin` is
present and non-empty, `dist` parsed as an integer, and `origin` parsed.
Carries (origin string, lat, lng, dist). -/
def geoFilter (p : ParsedParams) : Option (String × ℚ × ℚ × ℤ) :=
  match p.origin, p.dist with
  | some o, some dd =>
    if o = "" then none
    else
      match parse_lat_lng o with
      | some (lat, lng) => some (o, lat, lng, dd)
      | none => none
  | _, _ => none

/-- The composed filter on a user (the four `q.filter(...)` calls,
app.py lines 136–157): gender equality, age bounds, and
`User.locations.any(earth_distance(location, pt) < meters)` with
`meters = dist * MILE_TO_METER`. -/
def userMatches (ed : EarthDist) (d : DB) (p : ParsedParams) (u : DUser) : Bool :=
  (match genderFilter p with
   | some g => u.gender = g
   | none => true) &&
  (match p.min_age with
   | some n => decide (n ≤ u.age)
   | none => true) &&
  (match p.max_age with
   | some n => decide (u.age ≤ n)
   | none => true) &&
  (match geoFilter p with
   | some (_, lat, lng, dd) =>
     (userLocations d u).any (fun loc =>
       decide (ed (loc.latitude, loc.longitude) (lat, lng) < (dd : ℚ) * MILE_TO_METER))
   | none => true)

/-- The filtered (pre-pagination) user list of a request. -/
def matchedUsers (ed : EarthDist) (d : DB) (args : Args) : List DUser :=
  d.users.filter (userMatches ed d (parseParams args))

/-! ## Response assembly (app.py lines 159–205) -/

/-- A JSON value appearing in `metadata.query`: a string or an integer. -/
inductive QVal where
  | s : String → QVal
  | i : ℤ → QVal
deriving DecidableEq, Repr

/-- `metadata_query`, in the code's insertion order. -/
def metadataQuery (p : ParsedParams) : List (String × QVal) :=
  (match genderFilter p with
   | some g => [("gender", QVal.s g)]
   | none => []) ++
  (match p.min_age with
   | some n => [("min_age", QVal.i n)]
   | none => []) ++
  (match p.max_age with
   | some n => [("max_age", QVal.i n)]
   | none => []) ++
  (match geoFilter p with
   | some (o, _, _, dd) => [("origin", QVal.s o), ("dist", QVal.i dd)]
   | none => []) ++
  [("limit", QVal.i p.limit), ("start", QVal.i p.start)]

/-- One GeoJSON feature of `locationHistory`: `properties.city` and
`geometry.coordinates` in `[longitude, latitude]` order. -/
structure Feature where
  city : String
  coordinates : ℚ × ℚ
deriving DecidableEq, Repr

/-- One entry of `results`: the user's `properties` plus the
`locationHistory` feature collection. -/
structure UserOut where
  id : ℤ
  name : String
  age : ℤ
  gender : String
  locationHistory : List Feature
deriving DecidableEq, Repr

/-- The per-user dictionary built in the `for user in q.all()` loop. -/
def buildResult (d : DB) (u : DUser) : UserOut where
  id := u.id
  name := u.name
  age := u.age
  gender := u.gender
  locationHistory := (userLocations d u).map (fun loc =>
    { city := loc.name, coordinates := (loc.longitude, loc.latitude) })

/-- The JSON envelope returned by the route. -/
structure Response where
  path : String
  query : List (String × QVal)
  total_results : ℕ
  num_results : ℕ
  results : List UserOut
deriving Repr

/-- The `/users` route (app.py lines 99–205): parse parameters, filter,
count before pagination, apply `LIMIT`/`OFFSET` (offset first, then limit,
as in SQL), and assemble the JSON.  Negative `limit`/`start` reach the
database unchecked in the source; `Int.toNat` stands for the rows such a
query can return. -/
def usersRoute (ed : EarthDist) (d : DB) (args : Args) : Response :=
  let p := parseParams args
  let matched := d.users.filter (userMatches ed d p)
  let page := (matched.drop p.start.toNat).take p.limit.toNat
  let results := page.map (buildResult d)
  { path := "/users"
    query := metadataQuery p
    total_results := matched.length
    num_results := results.length
    results := results }

/-! ## Seed loader (seed.py) -/

/-- One CSV row (all CSV fields are strings; SQLAlchemy coerces on insert,
which is outside the loader's logic). -/
structure Row where
  user_id : String
  user_name : String
  user_age : String
  user_gender : String
  last_location : String
  lat : String
  long : String
deriving DecidableEq, Repr

/-- A `User(...)` object as constructed by the loader. -/
structure SeedUser where
  id : String
  name : String
  age : String
  gender : String
deriving DecidableEq, Repr

/-- A `Location(...)` object as constructed by the loader. -/
structure SeedLoc where
  user_id : String
  name : String
  lat : String
  long : String
deriving DecidableEq, Repr

def mkSeedUser (r : Row) : SeedUser :=
  { id := r.user_id, name := r.user_name, age := r.user_age, gender := r.user_gender }

def mkSeedLoc (r : Row) : SeedLoc :=
  { user_id := r.user_id, name := r.last_location, lat := r.lat, long := r.long }

/-- The loop of `seed.py`: `seen` is the `user_ids` set; a user is added
only on the first row with its id, a location on every row. -/
def seedAux : List Row → List String → List SeedUser × List SeedLoc
  | [], _ => ([], [])
  | r :: rs, seen =>
    if r.user_id ∈ seen then
      let (us, ls) := seedAux rs seen
      (us, mkSeedLoc r :: ls)
    else
      let (us, ls) := seedAux rs (r.user_id :: seen)
      (mkSeedUser r :: us, mkSeedLoc r :: ls)

/-- The objects inserted by one run of the seed script. -/
def seed (rows : List Row) : List SeedUser × List SeedLoc :=
  seedAux rows []

/-! ## The four filter predicates, stated independently of each other
(used to express that the filters compose as a pure conjunction) -/

/-- The user passes the gender filter (vacuous when it is not applied). -/
def passGender (p : ParsedParams) (u : DUser) : Prop :=
  ∀ g, genderFilter p = some g → u.gender = g

/-- The user passes the `min_age` filter (vacuous when not applied). -/
def passMinAge (p : ParsedParams) (u : DUser) : Prop :=
  ∀ n, p.min_age = some n → n ≤ u.age

/-- The user passes the `max_age` filter (vacuous when not applied). -/
def passMaxAge (p : ParsedParams) (u : DUser) : Prop :=
  ∀ n, p.max_age = some n → u.age ≤ n

/-- The user passes the geospatial filter: some location within the
threshold (vacuous when the filter is not applied).  `x` is the applied
(origin, lat, lng, dist) tuple. -/
def passGeo (ed : EarthDist) (d : DB) (p : ParsedParams) (u : DUser) : Prop :=
  ∀ x : String × ℚ × ℚ × ℤ, geoFilter p = some x →
    ∃ loc ∈ userLocations d u,
      ed (loc.latitude, loc.longitude) (x.2.1, x.2.2.1) < (x.2.2.2 : ℚ) * MILE_TO_METER

/-! ## Concrete fixtures used to instantiate the theorems -/

/-- A trivial distance function (every pair of points at distance 0). -/
def edZero : EarthDist := fun _ _ => 0

/-- A one-user, one-location database. -/
def db0 : DB where
  users := [{ id := 1, name := "Ann", age := 35, gender := "f" }]
  locations := [{ id := 1, user_id := 1, name := "Philly", latitude := 40, longitude := -75 }]

/-- First row of a sample CSV. -/
def row1 : Row where
  user_id := "1"
  user_name := "Ann"
  user_age := "35"
  user_gender := "f"
  last_location := "Philly"
  lat := "40.0"
  long := "-75.0"

/-- Second row of the sample CSV, repeating `user_id` "1". -/
def row2 : Row where
  user_id := "1"
  user_name := "Bob"
  user_age := "40"
  user_gender := "m"
  last_location := "NYC"
  lat := "40.7"
  long := "-74.0"

/-! # Theorems

## Generic helper lemmas -/

theorem getArg_removeArg_self (args : Args) (k : String) :
    getArg (removeArg args k) k = none := by
  unfold getArg removeArg
  induction args with
  | nil => rfl
  | cons a t ih =>
    by_cases h1 : a.1 = k
    · rw [List.filter_cons_of_neg (by simp [h1])]
      exact ih
    · rw [List.filter_cons_of_pos (by simp [h1]),
        List.find?_cons_of_neg _ (by simp [h1])]
      exact ih

theorem getArg_removeArg_ne (args : Args) (k k' : String) (h : k' ≠ k) :
    getArg (removeArg args k) k' = getArg args k' := by
  unfold getArg removeArg
  induction args with
  | nil => rfl
  | cons a t ih =>
    by_cases h1 : a.1 = k
    · rw [List.filter_cons_of_neg (by simp [h1]),
        List.find?_cons_of_neg _ (by
          simp only [decide_eq_true_eq]
          exact fun hc => h (hc ▸ h1))]
      exact ih
    · by_cases h2 : a.1 = k'
      · rw [List.filter_cons_of_pos (by simp [h1]),
          List.find?_cons_of_pos _ (by simp [h2]),
          List.find?_cons_of_pos _ (by simp [h2])]
      · rw [List.filter_cons_of_pos (by simp [h1]),
          List.find?_cons_of_neg _ (by simp [h2]),
          List.find?_cons_of_neg _ (by simp [h2])]
        exact ih

theorem getArgInt_removeArg_ne (args : Args) (k k' : String) (h : k' ≠ k) :
    getArgInt (removeArg args k) k' = getArgInt args k' := by
  simp [getArgInt, getArg_removeArg_ne args k k' h]

theorem geoFilter_congr {p p' : ParsedParams}
    (h1 : p'.origin = p.origin) (h2 : p'.dist = p.dist) :
    geoFilter p' = geoFilter p := by
  simp [geoFilter, h1, h2]

theorem userMatches_congr (ed : EarthDist) (d : DB) {p p' : ParsedParams}
    (h1 : genderFilter p' = genderFilter p) (h2 : p'.min_age = p.min_age)
    (h3 : p'.max_age = p.max_age) (h4 : geoFilter p' = geoFilter p) :
    userMatches ed d p' = userMatches ed d p := by
  funext u
  simp [userMatches, h1, h2, h3, h4]

theorem usersRoute_total_eq (ed : EarthDist) (d : DB) (args : Args) :
    (usersRoute ed d args).total_results = (matchedUsers ed d args).length := rfl

theorem usersRoute_results_eq (ed : EarthDist) (d : DB) (args : Args) :
    (usersRoute ed d args).results =
      (((matchedUsers ed d args).drop (parseParams args).start.toNat).take
          (parseParams args).limit.toNat).map (buildResult d) := rfl

theorem usersRoute_query_eq (ed : EarthDist) (d : DB) (args : Args) :
    (usersRoute ed d args).query = metadataQuery (parseParams args) := rfl

theorem usersRoute_num_eq (ed : EarthDist) (d : DB) (args : Args) :
    (usersRoute ed d args).num_results =
      (((matchedUsers ed d args).drop (parseParams args).start.toNat).take
          (parseParams args).limit.toNat).length := by
  show (List.map _ _).length = _
  rw [List.length_map]
  rfl

theorem matchedUsers_congr (ed : EarthDist) (d : DB) (args args' : Args)
    (h : ∀ k, k ≠ "limit" → k ≠ "start" → getArg args' k = getArg args k) :
    matchedUsers ed d args' = matchedUsers ed d args := by
  unfold matchedUsers
  have hg : (parseParams args').gender = (parseParams args).gender :=
    h "gender" (by decide) (by decide)
  have hmin : (parseParams args').min_age = (parseParams args).min_age := by
    show getArgInt args' "min_age" = getArgInt args "min_age"
    unfold getArgInt
    rw [h "min_age" (by decide) (by decide)]
  have hmax : (parseParams args').max_age = (parseParams args).max_age := by
    show getArgInt args' "max_age" = getArgInt args "max_age"
    unfold getArgInt
    rw [h "max_age" (by decide) (by decide)]
  have ho : (parseParams args').origin = (parseParams args).origin :=
    h "origin" (by decide) (by decide)
  have hd : (parseParams args').dist = (parseParams args).dist := by
    show getArgInt args' "dist" = getArgInt args "dist"
    unfold getArgInt
    rw [h "dist" (by decide) (by decide)]
  rw [userMatches_congr ed d (by simp [genderFilter, hg]) hmin hmax
    (geoFilter_congr ho hd)]

theorem parseParams_gender (args : Args) :
    (parseParams args).gender = getArg args "gender" := rfl

theorem parseParams_min_age (args : Args) :
    (parseParams args).min_age = getArgInt args "min_age" := rfl

theorem parseParams_max_age (args : Args) :
    (parseParams args).max_age = getArgInt args "max_age" := rfl

theorem parseParams_origin (args : Args) :
    (parseParams args).origin = getArg args "origin" := rfl

theorem parseParams_dist (args : Args) :
    (parseParams args).dist = getArgInt args "dist" := rfl

theorem parseParams_limit (args : Args) :
    (parseParams args).limit = (getArgInt args "limit").getD 5 := rfl

theorem parseParams_start (args : Args) :
    (parseParams args).start = (getArgInt args "start").getD 0 := rfl

theorem lookup_mdq_gender (p : ParsedParams) :
    List.lookup "gender" (metadataQuery p) = (genderFilter p).map QVal.s := by
  cases hg : genderFilter p <;> cases hm : p.min_age <;> cases hM : p.max_age <;>
    cases hgeo : geoFilter p <;>
    simp [metadataQuery, hg, hm, hM, hgeo, List.lookup]

theorem lookup_mdq_min_age (p : ParsedParams) :
    List.lookup "min_age" (metadataQuery p) = p.min_age.map QVal.i := by
  cases hg : genderFilter p <;> cases hm : p.min_age <;> cases hM : p.max_age <;>
    cases hgeo : geoFilter p <;>
    simp [metadataQuery, hg, hm, hM, hgeo, List.lookup]

theorem lookup_mdq_max_age (p : ParsedParams) :
    List.lookup "max_age" (metadataQuery p) = p.max_age.map QVal.i := by
  cases hg : genderFilter p <;> cases hm : p.min_age <;> cases hM : p.max_age <;>
    cases hgeo : geoFilter p <;>
    simp [metadataQuery, hg, hm, hM, hgeo, List.lookup]

theorem lookup_mdq_origin (p : ParsedParams) :
    List.lookup "origin" (metadataQuery p) = (geoFilter p).map (fun x => QVal.s x.1) := by
  cases hg : genderFilter p <;> cases hm : p.min_age <;> cases hM : p.max_age <;>
    cases hgeo : geoFilter p <;>
    simp [metadataQuery, hg, hm, hM, hgeo, List.lookup]

theorem lookup_mdq_dist (p : ParsedParams) :
    List.lookup "dist" (metadataQuery p) = (geoFilter p).map (fun x => QVal.i x.2.2.2) := by
  cases hg : genderFilter p <;> cases hm : p.min_age <;> cases hM : p.max_age <;>
    cases hgeo : geoFilter p <;>
    simp [metadataQuery, hg, hm, hM, hgeo, List.lookup]

theorem lookup_mdq_limit (p : ParsedParams) :
    List.lookup "limit" (metadataQuery p) = some (QVal.i p.limit) := by
  cases hg : genderFilter p <;> cases hm : p.min_age <;> cases hM : p.max_age <;>
    cases hgeo : geoFilter p <;>
    simp [metadataQuery, hg, hm, hM, hgeo, List.lookup]

theorem lookup_mdq_start (p : ParsedParams) :
    List.lookup "start" (metadataQuery p) = some (QVal.i p.start) := by
  cases hg : genderFilter p <;> cases hm : p.min_age <;> cases hM : p.max_age <;>
    cases hgeo : geoFilter p <;>
    simp [metadataQuery, hg, hm, hM, hgeo, List.lookup]

theorem lookup_mdq_other (p : ParsedParams) (k : String)
    (h1 : k ≠ "gender") (h2 : k ≠ "min_age") (h3 : k ≠ "max_age")
    (h4 : k ≠ "origin") (h5 : k ≠ "dist") (h6 : k ≠ "limit") (h7 : k ≠ "start") :
    List.lookup k (metadataQuery p) = none := by
  have e1 : (k == "gender") = false := beq_eq_false_iff_ne.mpr h1
  have e2 : (k == "min_age") = false := beq_eq_false_iff_ne.mpr h2
  have e3 : (k == "max_age") = false := beq_eq_false_iff_ne.mpr h3
  have e4 : (k == "origin") = false := beq_eq_false_iff_ne.mpr h4
  have e5 : (k == "dist") = false := beq_eq_false_iff_ne.mpr h5
  have e6 : (k == "limit") = false := beq_eq_false_iff_ne.mpr h6
  have e7 : (k == "start") = false := beq_eq_false_iff_ne.mpr h7
  cases hg : genderFilter p <;> cases hm : p.min_age <;> cases hM : p.max_age <;>
    cases hgeo : geoFilter p <;>
    simp [metadataQuery, hg, hm, hM, hgeo, List.lookup, e1, e2, e3, e4, e5, e6, e7]

theorem usersRoute_outputs_congr (ed : EarthDist) (d : DB) (args args' : Args)
    (h1 : genderFilter (parseParams args') = genderFilter (parseParams args))
    (h2 : (parseParams args').min_age = (parseParams args).min_age)
    (h3 : (parseParams args').max_age = (parseParams args).max_age)
    (h4 : geoFilter (parseParams args') = geoFilter (parseParams args))
    (h5 : (parseParams args').limit = (parseParams args).limit)
    (h6 : (parseParams args').start = (parseParams args).start) :
    (usersRoute ed d args').results = (usersRoute ed d args).results ∧
    (usersRoute ed d args').total_results = (usersRoute ed d args).total_results := by
  have hm : matchedUsers ed d args' = matchedUsers ed d args := by
    unfold matchedUsers
    rw [userMatches_congr ed d h1 h2 h3 h4]
  constructor
  · rw [usersRoute_results_eq, usersRoute_results_eq, hm, h5, h6]
  · rw [usersRoute_total_eq, usersRoute_total_eq, hm]

/-! ## Claim C3 -/

/-- Claim C3: `total_results` is the number of users matching the filters
before pagination, `total_results ≥ num_results`, `num_results` is at most
the effective limit, and changing only `limit`/`start` leaves
`total_results` unchanged. -/
theorem pagination_invariants (ed : EarthDist) (d : DB) (args : Args)
    (hl : 0 ≤ (parseParams args).limit) :
    (usersRoute ed d args).total_results = (matchedUsers ed d args).length ∧
    (usersRoute ed d args).num_results ≤ (usersRoute ed d args).total_results ∧
    ((usersRoute ed d args).num_results : ℤ) ≤ (parseParams args).limit ∧
    ∀ args' : Args,
      (∀ k, k ≠ "limit" → k ≠ "start" → getArg args' k = getArg args k) →
      (usersRoute ed d args').total_results = (usersRoute ed d args).total_results := by
  refine ⟨rfl, ?_, ?_, ?_⟩
  · rw [usersRoute_num_eq, usersRoute_total_eq]
    calc (((matchedUsers ed d args).drop (parseParams args).start.toNat).take
          (parseParams args).limit.toNat).length
        ≤ ((matchedUsers ed d args).drop (parseParams args).start.toNat).length := by
          rw [List.length_take]; exact min_le_right _ _
      _ ≤ (matchedUsers ed d args).length := by
          rw [List.length_drop]; omega
  · have h1 : (usersRoute ed d args).num_results ≤ (parseParams args).limit.toNat := by
      rw [usersRoute_num_eq, List.length_take]
      exact min_le_left _ _
    calc ((usersRoute ed d args).num_results : ℤ)
        ≤ ((parseParams args).limit.toNat : ℤ) := Int.ofNat_le.mpr h1
      _ = (parseParams args).limit := Int.toNat_of_nonneg hl
  · intro args' h
    rw [usersRoute_total_eq, usersRoute_total_eq, matchedUsers_congr ed d args args' h]

/-- Instantiation of `pagination_invariants` at a concrete request. -/
theorem pagination_invariants_witness :
    0 ≤ (parseParams ([("gender", "f")] : Args)).limit ∧
      (usersRoute edZero db0 [("gender", "f")]).num_results ≤
        (usersRoute edZero db0 [("gender", "f")]).total_results :=
  ⟨by decide, (pagination_invariants edZero db0 [("gender", "f")] (by decide)).2.1⟩

/-! ## Claim C8 -/

/-- Claim C8: each returned entry carries the user's `id`, `name`, `age`,
`gender` and a feature collection with one feature per location, the
location name as `properties.city` and coordinates in
`[longitude, latitude]` order; `num_results` equals the length of
`results`. -/
theorem response_shape (ed : EarthDist) (d : DB) (args : Args) :
    (usersRoute ed d args).num_results = (usersRoute ed d args).results.length ∧
    ∀ r ∈ (usersRoute ed d args).results, ∃ u, u ∈ d.users ∧
      r.id = u.id ∧ r.name = u.name ∧ r.age = u.age ∧ r.gender = u.gender ∧
      r.locationHistory = (userLocations d u).map (fun loc =>
        { city := loc.name, coordinates := (loc.longitude, loc.latitude) }) := by
  refine ⟨rfl, ?_⟩
  intro r hr
  rw [usersRoute_results_eq] at hr
  rcases List.mem_map.mp hr with ⟨u, hu, rfl⟩
  have hu2 : u ∈ matchedUsers ed d args :=
    List.drop_subset _ _ (List.take_subset _ _ hu)
  have hu3 : u ∈ d.users := List.mem_of_mem_filter hu2
  exact ⟨u, hu3, rfl, rfl, rfl, rfl, rfl⟩

/-- Instantiation of `response_shape` at a concrete request. -/
theorem response_shape_witness :
    (usersRoute edZero db0 []).num_results = (usersRoute edZero db0 []).results.length :=
  (response_shape edZero db0 []).1

/-! ## Claim C5 -/

/-- Claim C5: `metadata.query` always carries the effective `limit` and
`start`; it carries `gender`, `min_age`, `max_age`, `origin`, `dist`
exactly when the corresponding parameter validated and was applied as a
filter (with the applied value), and it carries no other key; on
`/users?gender=f&limit=2&start=0` it is exactly
`{"gender": "f", "limit": 2, "start": 0}`. -/
theorem metadata_query_spec (ed : EarthDist) (d : DB) (args : Args) :
    List.lookup "limit" (usersRoute ed d args).query =
      some (QVal.i (parseParams args).limit) ∧
    List.lookup "start" (usersRoute ed d args).query =
      some (QVal.i (parseParams args).start) ∧
    List.lookup "gender" (usersRoute ed d args).query =
      (genderFilter (parseParams args)).map QVal.s ∧
    List.lookup "min_age" (usersRoute ed d args).query =
      ((parseParams args).min_age).map QVal.i ∧
    List.lookup "max_age" (usersRoute ed d args).query =
      ((parseParams args).max_age).map QVal.i ∧
    List.lookup "origin" (usersRoute ed d args).query =
      (geoFilter (parseParams args)).map (fun x => QVal.s x.1) ∧
    List.lookup "dist" (usersRoute ed d args).query =
      (geoFilter (parseParams args)).map (fun x => QVal.i x.2.2.2) ∧
    (∀ k : String, k ≠ "gender" → k ≠ "min_age" → k ≠ "max_age" → k ≠ "origin" →
      k ≠ "dist" → k ≠ "limit" → k ≠ "start" →
      List.lookup k (usersRoute ed d args).query = none) ∧
    (usersRoute ed d [("gender", "f"), ("limit", "2"), ("start", "0")]).query =
      [("gender", QVal.s "f"), ("limit", QVal.i 2), ("start", QVal.i 0)] := by
  rw [usersRoute_query_eq]
  refine ⟨lookup_mdq_limit _, lookup_mdq_start _, lookup_mdq_gender _,
    lookup_mdq_min_age _, lookup_mdq_max_age _, lookup_mdq_origin _,
    lookup_mdq_dist _, fun k h1 h2 h3 h4 h5 h6 h7 =>
      lookup_mdq_other _ k h1 h2 h3 h4 h5 h6 h7, ?_⟩
  rw [usersRoute_query_eq]
  decide

/-- Instantiation of `metadata_query_spec` at a concrete request and key. -/
theorem metadata_query_spec_witness :
    List.lookup "foo" (usersRoute edZero db0 [("gender", "f")]).query = none :=
  (metadata_query_spec edZero db0 [("gender", "f")]).2.2.2.2.2.2.2.1 "foo"
    (by decide) (by decide) (by decide) (by decide) (by decide) (by decide) (by decide)

/-! ## Claim C10 -/

/-- Claim C10: an empty-string `gender` parameter behaves exactly like an
absent one: same result set, same total, and no `gender` key in
`metadata.query`. -/
theorem empty_gender_ignored (ed : EarthDist) (d : DB) (args : Args)
    (h : getArg args "gender" = some "") :
    (usersRoute ed d args).results =
      (usersRoute ed d (removeArg args "gender")).results ∧
    (usersRoute ed d args).total_results =
      (usersRoute ed d (removeArg args "gender")).total_results ∧
    List.lookup "gender" (usersRoute ed d args).query = none := by
  have hg1 : genderFilter (parseParams args) = none := by
    rw [genderFilter, parseParams_gender, h]
    simp
  have hg2 : genderFilter (parseParams (removeArg args "gender")) = none := by
    rw [genderFilter, parseParams_gender, getArg_removeArg_self]
  have hmin : (parseParams (removeArg args "gender")).min_age = (parseParams args).min_age := by
    rw [parseParams_min_age, parseParams_min_age,
      getArgInt_removeArg_ne args "gender" "min_age" (by decide)]
  have hmax : (parseParams (removeArg args "gender")).max_age = (parseParams args).max_age := by
    rw [parseParams_max_age, parseParams_max_age,
      getArgInt_removeArg_ne args "gender" "max_age" (by decide)]
  have ho : (parseParams (removeArg args "gender")).origin = (parseParams args).origin := by
    rw [parseParams_origin, parseParams_origin,
      getArg_removeArg_ne args "gender" "origin" (by decide)]
  have hd : (parseParams (removeArg args "gender")).dist = (parseParams args).dist := by
    rw [parseParams_dist, parseParams_dist,
      getArgInt_removeArg_ne args "gender" "dist" (by decide)]
  have hl : (parseParams (removeArg args "gender")).limit = (parseParams args).limit := by
    rw [parseParams_limit, parseParams_limit,
      getArgInt_removeArg_ne args "gender" "limit" (by decide)]
  have hs : (parseParams (removeArg args "gender")).start = (parseParams args).start := by
    rw [parseParams_start, parseParams_start,
      getArgInt_removeArg_ne args "gender" "start" (by decide)]
  have hc := usersRoute_outputs_congr ed d args (removeArg args "gender")
    (hg2.trans hg1.symm) hmin hmax (geoFilter_congr ho hd) hl hs
  refine ⟨hc.1.symm, hc.2.symm, ?_⟩
  rw [usersRoute_query_eq, lookup_mdq_gender, hg1]
  rfl

/-- Instantiation of `empty_gender_ignored` at a concrete request. -/
theorem empty_gender_ignored_witness :
    getArg ([("gender", ""), ("min_age", "30")] : Args) "gender" = some "" ∧
      (usersRoute edZero db0 [("gender", ""), ("min_age", "30")]).results =
        (usersRoute edZero db0 (removeArg [("gender", ""), ("min_age", "30")] "gender")).results :=
  ⟨by decide,
    (empty_gender_ignored edZero db0 [("gender", ""), ("min_age", "30")] (by decide)).1⟩

/-! ## Claim C6 -/

theorem geoFilter_none_of_origin_none {p : ParsedParams} (h : p.origin = none) :
    geoFilter p = none := by
  simp [geoFilter, h]

theorem geoFilter_none_of_dist_none {p : ParsedParams} (h : p.dist = none) :
    geoFilter p = none := by
  cases ho : p.origin <;> simp [geoFilter, ho, h]

theorem geoFilter_none_of_origin_empty {p : ParsedParams} (h : p.origin = some "") :
    geoFilter p = none := by
  cases hd : p.dist <;> simp [geoFilter, h, hd]

theorem geoFilter_none_of_unparsable {p : ParsedParams}
    (h : ∀ o, p.origin = some o → parse_lat_lng o = none) :
    geoFilter p = none := by
  cases ho : p.origin with
  | none => simp [geoFilter, ho]
  | some o =>
    cases hd : p.dist with
    | none => simp [geoFilter, ho, hd]
    | some dd =>
      by_cases he : o = ""
      · simp [geoFilter, ho, hd, he]
      · simp [geoFilter, ho, hd, he, h o ho]

/-- Claim C6: when `origin` is absent or empty, `dist` is absent or
non-integer, or `origin` is malformed, no geospatial filter applies and the
response rows and total equal those of the request with both parameters
removed. -/
theorem geo_filter_absent (ed : EarthDist) (d : DB) (args : Args)
    (h : getArg args "origin" = none ∨ getArg args "origin" = some "" ∨
      getArgInt args "dist" = none ∨
      (∀ o, getArg args "origin" = some o → parse_lat_lng o = none)) :
    (usersRoute ed d args).results =
      (usersRoute ed d (removeArg (removeArg args "origin") "dist")).results ∧
    (usersRoute ed d args).total_results =
      (usersRoute ed d (removeArg (removeArg args "origin") "dist")).total_results := by
  have hgeo1 : geoFilter (parseParams args) = none := by
    rcases h with h | h | h | h
    · exact geoFilter_none_of_origin_none ((parseParams_origin args).trans h)
    · exact geoFilter_none_of_origin_empty ((parseParams_origin args).trans h)
    · exact geoFilter_none_of_dist_none ((parseParams_dist args).trans h)
    · exact geoFilter_none_of_unparsable
        (fun o ho => h o (((parseParams_origin args).symm.trans ho)))
  have hgeo2 : geoFilter (parseParams (removeArg (removeArg args "origin") "dist")) = none := by
    refine geoFilter_none_of_origin_none ?_
    rw [parseParams_origin, getArg_removeArg_ne _ "dist" "origin" (by decide),
      getArg_removeArg_self]
  have hgender : (parseParams (removeArg (removeArg args "origin") "dist")).gender
      = (parseParams args).gender := by
    rw [parseParams_gender, parseParams_gender,
      getArg_removeArg_ne _ "dist" "gender" (by decide),
      getArg_removeArg_ne args "origin" "gender" (by decide)]
  have hmin : (parseParams (removeArg (removeArg args "origin") "dist")).min_age
      = (parseParams args).min_age := by
    rw [parseParams_min_age, parseParams_min_age, getArgInt, getArgInt,
      getArg_removeArg_ne _ "dist" "min_age" (by decide),
      getArg_removeArg_ne args "origin" "min_age" (by decide)]
  have hmax : (parseParams (removeArg (removeArg args "origin") "dist")).max_age
      = (parseParams args).max_age := by
    rw [parseParams_max_age, parseParams_max_age, getArgInt, getArgInt,
      getArg_removeArg_ne _ "dist" "max_age" (by decide),
      getArg_removeArg_ne args "origin" "max_age" (by decide)]
  have hl : (parseParams (removeArg (removeArg args "origin") "dist")).limit
      = (parseParams args).limit := by
    rw [parseParams_limit, parseParams_limit, getArgInt, getArgInt,
      getArg_removeArg_ne _ "dist" "limit" (by decide),
      getArg_removeArg_ne args "origin" "limit" (by decide)]
  have hs : (parseParams (removeArg (removeArg args "origin") "dist")).start
      = (parseParams args).start := by
    rw [parseParams_start, parseParams_start, getArgInt, getArgInt,
      getArg_removeArg_ne _ "dist" "start" (by decide),
      getArg_removeArg_ne args "origin" "start" (by decide)]
  have hc := usersRoute_outputs_congr ed d args (removeArg (removeArg args "origin") "dist")
    (by simp [genderFilter, hgender]) hmin hmax (hgeo2.trans hgeo1.symm) hl hs
  exact ⟨hc.1.symm, hc.2.symm⟩

/-- Instantiation of `geo_filter_absent` at a request supplying only
`origin` (no `dist`). -/
theorem geo_filter_absent_witness :
    getArgInt ([("origin", "40.0,-75.0")] : Args) "dist" = none ∧
      (usersRoute edZero db0 [("origin", "40.0,-75.0")]).results =
        (usersRoute edZero db0
          (removeArg (removeArg [("origin", "40.0,-75.0")] "origin") "dist")).results :=
  ⟨by decide,
    (geo_filter_absent edZero db0 [("origin", "40.0,-75.0")] (Or.inr (Or.inr (Or.inl (by decide))))).1⟩

/-! ## Claim C7 -/

/-- Claim C7: parameter parse failures never surface as errors: a
non-integer `limit` falls back to the default 5, a non-integer `start` to
0, and a non-integer `min_age`/`max_age` is ignored entirely (no age
filter, key absent from `metadata.query`, rows and total as if the
parameter were removed); the route still produces its normal envelope. -/
theorem param_failures_silent (ed : EarthDist) (d : DB) (args : Args) :
    (∀ v, getArg args "limit" = some v → pyInt? v.data = none →
      (parseParams args).limit = 5) ∧
    (∀ v, getArg args "start" = some v → pyInt? v.data = none →
      (parseParams args).start = 0) ∧
    (∀ v, getArg args "min_age" = some v → pyInt? v.data = none →
      List.lookup "min_age" (usersRoute ed d args).query = none ∧
      (usersRoute ed d args).results =
        (usersRoute ed d (removeArg args "min_age")).results ∧
      (usersRoute ed d args).total_results =
        (usersRoute ed d (removeArg args "min_age")).total_results) ∧
    (∀ v, getArg args "max_age" = some v → pyInt? v.data = none →
      List.lookup "max_age" (usersRoute ed d args).query = none ∧
      (usersRoute ed d args).results =
        (usersRoute ed d (removeArg args "max_age")).results ∧
      (usersRoute ed d args).total_results =
        (usersRoute ed d (removeArg args "max_age")).total_results) ∧
    (usersRoute ed d args).path = "/users" := by
  refine ⟨?_, ?_, ?_, ?_, rfl⟩
  · intro v hv hp
    rw [parseParams_limit, getArgInt, hv]
    simp [hp]
  · intro v hv hp
    rw [parseParams_start, getArgInt, hv]
    simp [hp]
  · intro v hv hp
    have hm : (parseParams args).min_age = none := by
      rw [parseParams_min_age, getArgInt, hv]
      simpa using hp
    have hm2 : (parseParams (removeArg args "min_age")).min_age = none := by
      rw [parseParams_min_age, getArgInt, getArg_removeArg_self]
      rfl
    have hgender : (parseParams (removeArg args "min_age")).gender
        = (parseParams args).gender := by
      rw [parseParams_gender, parseParams_gender,
        getArg_removeArg_ne args "min_age" "gender" (by decide)]
    have hmax : (parseParams (removeArg args "min_age")).max_age
        = (parseParams args).max_age := by
      rw [parseParams_max_age, parseParams_max_age,
        getArgInt_removeArg_ne args "min_age" "max_age" (by decide)]
    have ho : (parseParams (removeArg args "min_age")).origin
        = (parseParams args).origin := by
      rw [parseParams_origin, parseParams_origin,
        getArg_removeArg_ne args "min_age" "origin" (by decide)]
    have hd2 : (parseParams (removeArg args "min_age")).dist
        = (parseParams args).dist := by
      rw [parseParams_dist, parseParams_dist,
        getArgInt_removeArg_ne args "min_age" "dist" (by decide)]
    have hl : (parseParams (removeArg args "min_age")).limit
        = (parseParams args).limit := by
      rw [parseParams_limit, parseParams_limit,
        getArgInt_removeArg_ne args "min_age" "limit" (by decide)]
    have hs : (parseParams (removeArg args "min_age")).start
        = (parseParams args).start := by
      rw [parseParams_start, parseParams_start,
        getArgInt_removeArg_ne args "min_age" "start" (by decide)]
    have hc := usersRoute_outputs_congr ed d args (removeArg args "min_age")
      (by simp [genderFilter, hgender]) (hm2.trans hm.symm) hmax
      (geoFilter_congr ho hd2) hl hs
    refine ⟨?_, hc.1.symm, hc.2.symm⟩
    rw [usersRoute_query_eq, lookup_mdq_min_age, hm]
    rfl
  · intro v hv hp
    have hm : (parseParams args).max_age = none := by
      rw [parseParams_max_age, getArgInt, hv]
      simpa using hp
    have hm2 : (parseParams (removeArg args "max_age")).max_age = none := by
      rw [parseParams_max_age, getArgInt, getArg_removeArg_self]
      rfl
    have hgender : (parseParams (removeArg args "max_age")).gender
        = (parseParams args).gender := by
      rw [parseParams_gender, parseParams_gender,
        getArg_removeArg_ne args "max_age" "gender" (by decide)]
    have hmin : (parseParams (removeArg args "max_age")).min_age
        = (parseParams args).min_age := by
      rw [parseParams_min_age, parseParams_min_age,
        getArgInt_removeArg_ne args "max_age" "min_age" (by decide)]
    have ho : (parseParams (removeArg args "max_age")).origin
        = (parseParams args).origin := by
      rw [parseParams_origin, parseParams_origin,
        getArg_removeArg_ne args "max_age" "origin" (by decide)]
    have hd2 : (parseParams (removeArg args "max_age")).dist
        = (parseParams args).dist := by
      rw [parseParams_dist, parseParams_dist,
        getArgInt_removeArg_ne args "max_age" "dist" (by decide)]
    have hl : (parseParams (removeArg args "max_age")).limit
        = (parseParams args).limit := by
      rw [parseParams_limit, parseParams_limit,
        getArgInt_removeArg_ne args "max_age" "limit" (by decide)]
    have hs : (parseParams (removeArg args "max_age")).start
        = (parseParams args).start := by
      rw [parseParams_start, parseParams_start,
        getArgInt_removeArg_ne args "max_age" "start" (by decide)]
    have hc := usersRoute_outputs_congr ed d args (removeArg args "max_age")
      (by simp [genderFilter, hgender]) hmin (hm2.trans hm.symm)
      (geoFilter_congr ho hd2) hl hs
    refine ⟨?_, hc.1.symm, hc.2.symm⟩
    rw [usersRoute_query_eq, lookup_mdq_max_age, hm]
    rfl

/-- Instantiation of `param_failures_silent` at a request with a
non-integer `limit` and `min_age`. -/
theorem param_failures_silent_witness :
    (parseParams ([("limit", "abc"), ("min_age", "3.5")] : Args)).limit = 5 ∧
      List.lookup "min_age"
        (usersRoute edZero db0 [("limit", "abc"), ("min_age", "3.5")]).query = none :=
  ⟨(param_failures_silent edZero db0 [("limit", "abc"), ("min_age", "3.5")]).1
      "abc" (by decide) (by decide),
    ((param_failures_silent edZero db0 [("limit", "abc"), ("min_age", "3.5")]).2.2.1
      "3.5" (by decide) (by decide)).1⟩

/-! ## Claim C4 -/

theorem userMatches_iff (ed : EarthDist) (d : DB) (p : ParsedParams) (u : DUser) :
    userMatches ed d p u = true ↔
      passGender p u ∧ passMinAge p u ∧ passMaxAge p u ∧ passGeo ed d p u := by
  cases hg : genderFilter p with
  | none =>
    cases hm : p.min_age with
    | none =>
      cases hM : p.max_age with
      | none =>
        cases hgeo : geoFilter p with
        | none =>
          simp [userMatches, passGender, passMinAge, passMaxAge, passGeo, hg, hm, hM, hgeo,
            and_assoc]
        | some x =>
          obtain ⟨o, lat, lng, dd⟩ := x
          simp [userMatches, passGender, passMinAge, passMaxAge, passGeo, hg, hm, hM, hgeo,
            and_assoc]
      | some b =>
        cases hgeo : geoFilter p with
        | none =>
          simp [userMatches, passGender, passMinAge, passMaxAge, passGeo, hg, hm, hM, hgeo,
            and_assoc]
        | some x =>
          obtain ⟨o, lat, lng, dd⟩ := x
          simp [userMatches, passGender, passMinAge, passMaxAge, passGeo, hg, hm, hM, hgeo,
            and_assoc]
    | some a =>
      cases hM : p.max_age with
      | none =>
        cases hgeo : geoFilter p with
        | none =>
          simp [userMatches, passGender, passMinAge, passMaxAge, passGeo, hg, hm, hM, hgeo,
            and_assoc]
        | some x =>
          obtain ⟨o, lat, lng, dd⟩ := x
          simp [userMatches, passGender, passMinAge, passMaxAge, passGeo, hg, hm, hM, hgeo,
            and_assoc]
      | some b =>
        cases hgeo : geoFilter p with
        | none =>
          simp [userMatches, passGender, passMinAge, passMaxAge, passGeo, hg, hm, hM, hgeo,
            and_assoc]
        | some x =>
          obtain ⟨o, lat, lng, dd⟩ := x
          simp [userMatches, passGender, passMinAge, passMaxAge, passGeo, hg, hm, hM, hgeo,
            and_assoc]
  | some g =>
    cases hm : p.min_age with
    | none =>
      cases hM : p.max_age with
      | none =>
        cases hgeo : geoFilter p with
        | none =>
          simp [userMatches, passGender, passMinAge, passMaxAge, passGeo, hg, hm, hM, hgeo,
            and_assoc]
        | some x =>
          obtain ⟨o, lat, lng, dd⟩ := x
          simp [userMatches, passGender, passMinAge, passMaxAge, passGeo, hg, hm, hM, hgeo,
            and_assoc]
      | some b =>
        cases hgeo : geoFilter p with
        | none =>
          simp [userMatches, passGender, passMinAge, passMaxAge, passGeo, hg, hm, hM, hgeo,
            and_assoc]
        | some x =>
          obtain ⟨o, lat, lng, dd⟩ := x
          simp [userMatches, passGender, passMinAge, passMaxAge, passGeo, hg, hm, hM, hgeo,
            and_assoc]
    | some a =>
      cases hM : p.max_age with
      | none =>
        cases hgeo : geoFilter p with
        | none =>
          simp [userMatches, passGender, passMinAge, passMaxAge, passGeo, hg, hm, hM, hgeo,
            and_assoc]
        | some x =>
          obtain ⟨o, lat, lng, dd⟩ := x
          simp [userMatches, passGender, passMinAge, passMaxAge, passGeo, hg, hm, hM, hgeo,
            and_assoc]
      | some b =>
        cases hgeo : geoFilter p with
        | none =>
          simp [userMatches, passGender, passMinAge, passMaxAge, passGeo, hg, hm, hM, hgeo,
            and_assoc]
        | some x =>
          obtain ⟨o, lat, lng, dd⟩ := x
          simp [userMatches, passGender, passMinAge, passMaxAge, passGeo, hg, hm, hM, hgeo,
            and_assoc]

/-- Claim C4: the filters compose as a pure conjunction — membership in the
filtered set is equivalent to passing each applied filter independently
(hence independent of application order) — and a request with
`gender=f&min_age=30&max_age=40` returns only users with gender `"f"` and
age between 30 and 40. -/
theorem filters_conjunctive (ed : EarthDist) (d : DB) (args : Args) :
    (∀ u : DUser, u ∈ matchedUsers ed d args ↔
      u ∈ d.users ∧ passGender (parseParams args) u ∧ passMinAge (parseParams args) u ∧
        passMaxAge (parseParams args) u ∧ passGeo ed d (parseParams args) u) ∧
    (getArg args "gender" = some "f" → getArgInt args "min_age" = some 30 →
      getArgInt args "max_age" = some 40 →
      ∀ r ∈ (usersRoute ed d args).results,
        r.gender = "f" ∧ 30 ≤ r.age ∧ r.age ≤ 40) := by
  constructor
  · intro u
    rw [matchedUsers, List.mem_filter, userMatches_iff]
  · intro hg hmin hmax r hr
    rw [usersRoute_results_eq] at hr
    rcases List.mem_map.mp hr with ⟨u, hu, rfl⟩
    have hu2 : u ∈ matchedUsers ed d args :=
      List.drop_subset _ _ (List.take_subset _ _ hu)
    have hm := (List.mem_filter.mp hu2).2
    rw [userMatches_iff] at hm
    obtain ⟨h1, h2, h3, _⟩ := hm
    have hgf : genderFilter (parseParams args) = some "f" := by
      rw [genderFilter, parseParams_gender, hg]
      simp
    exact ⟨h1 "f" hgf, h2 30 ((parseParams_min_age args).trans hmin),
      h3 40 ((parseParams_max_age args).trans hmax)⟩

/-- Instantiation of `filters_conjunctive` at a concrete request, using the
conjunction characterization to decide membership. -/
theorem filters_conjunctive_witness :
    ({ id := 1, name := "Ann", age := 35, gender := "f" } : DUser) ∈
      matchedUsers edZero db0 [("gender", "f"), ("min_age", "30"), ("max_age", "40")] :=
  ((filters_conjunctive edZero db0
      [("gender", "f"), ("min_age", "30"), ("max_age", "40")]).1 _).mpr
    ⟨by decide,
      fun g hg => by
        rw [show genderFilter (parseParams
            ([("gender", "f"), ("min_age", "30"), ("max_age", "40")] : Args))
          = some "f" from by decide] at hg
        exact Option.some.inj hg,
      fun n hn => by
        rw [show (parseParams
            ([("gender", "f"), ("min_age", "30"), ("max_age", "40")] : Args)).min_age
          = some 30 from by decide] at hn
        rw [← Option.some.inj hn]
        decide,
      fun n hn => by
        rw [show (parseParams
            ([("gender", "f"), ("min_age", "30"), ("max_age", "40")] : Args)).max_age
          = some 40 from by decide] at hn
        rw [← Option.some.inj hn]
        decide,
      fun x hgeo => by
        rw [geoFilter_none_of_dist_none (by decide)] at hgeo
        cases hgeo⟩

/-! ## Claim C1 -/

theorem parse_lat_lng_empty : parse_lat_lng "" = none := rfl

theorem geoFilter_eq_some {p : ParsedParams} {o : String} {lat lng : ℚ} {dd : ℤ}
    (ho : p.origin = some o) (hd : p.dist = some dd)
    (hp : parse_lat_lng o = some (lat, lng)) :
    geoFilter p = some (o, lat, lng, dd) := by
  have he : o ≠ "" := by
    intro h
    rw [h, parse_lat_lng_empty] at hp
    cases hp
  simp [geoFilter, ho, hd, he, hp]

/-- Claim C1: when a valid `origin` and an integer `dist` are supplied (and
no other filter), a user is in the filtered set iff at least one of the
user's locations is at distance below `dist * 1609.34` meters from the
parsed origin point — any-match over the locations, not nearest-location. -/
theorem geo_filter_any_match (ed : EarthDist) (d : DB) (args : Args)
    (o : String) (lat lng : ℚ) (dd : ℤ) (u : DUser)
    (ho : getArg args "origin" = some o)
    (hp : parse_lat_lng o = some (lat, lng))
    (hd : getArgInt args "dist" = some dd)
    (hg : getArg args "gender" = none)
    (hmin : getArgInt args "min_age" = none)
    (hmax : getArgInt args "max_age" = none) :
    u ∈ matchedUsers ed d args ↔
      u ∈ d.users ∧ ∃ loc ∈ userLocations d u,
        ed (loc.latitude, loc.longitude) (lat, lng) < (dd : ℚ) * MILE_TO_METER := by
  have hgeo : geoFilter (parseParams args) = some (o, lat, lng, dd) :=
    geoFilter_eq_some ((parseParams_origin args).trans ho)
      ((parseParams_dist args).trans hd) hp
  have hgf : genderFilter (parseParams args) = none := by
    rw [genderFilter, parseParams_gender, hg]
  have hm2 : (parseParams args).min_age = none := (parseParams_min_age args).trans hmin
  have hM2 : (parseParams args).max_age = none := (parseParams_max_age args).trans hmax
  rw [matchedUsers, List.mem_filter]
  exact and_congr_right fun _ => by
    simp [userMatches, hgf, hm2, hM2, hgeo, List.any_eq_true]

/-- Instantiation of `geo_filter_any_match`: with the all-zero distance
function, the user with a location is within 50 miles of the origin. -/
theorem geo_filter_any_match_witness :
    ({ id := 1, name := "Ann", age := 35, gender := "f" } : DUser) ∈
      matchedUsers edZero db0 [("origin", "40.0,-75.0"), ("dist", "50")] :=
  (geo_filter_any_match edZero db0 [("origin", "40.0,-75.0"), ("dist", "50")]
      "40.0,-75.0" 40 (-75) 50 _
      (by decide)
      (by
        simp [parse_lat_lng, splitComma2, pySplitAux, pyFloat?, pyStrip, readSign,
          parseUnsigned, parseExp, digitsVal, isDigitCh, pySpace])
      (by decide) (by decide) (by decide) (by decide)).mpr
    ⟨by decide,
      ⟨{ id := 1, user_id := 1, name := "Philly", latitude := 40, longitude := -75 },
        by decide,
        by norm_num [edZero, MILE_TO_METER]⟩⟩

/-! ## Claim C9 -/

theorem seedAux_locs (rows : List Row) (seen : List String) :
    (seedAux rows seen).2 = rows.map mkSeedLoc := by
  induction rows generalizing seen with
  | nil => rfl
  | cons r rs ih =>
    by_cases h : r.user_id ∈ seen <;> simp [seedAux, h, ih]

theorem seedAux_users_mem (rows : List Row) (seen : List String) :
    ∀ u ∈ (seedAux rows seen).1, u.id ∉ seen ∧
      ∃ r, rows.find? (fun r => r.user_id = u.id) = some r ∧ u = mkSeedUser r := by
  induction rows generalizing seen with
  | nil => intro u hu; simp [seedAux] at hu
  | cons r rs ih =>
    intro u hu
    by_cases h : r.user_id ∈ seen
    · have hu2 : u ∈ (seedAux rs seen).1 := by simpa [seedAux, h] using hu
      obtain ⟨hns, r2, hf, he⟩ := ih seen u hu2
      refine ⟨hns, r2, ?_, he⟩
      rw [List.find?_cons_of_neg _ (by
        simp only [decide_eq_true_eq]
        exact fun hc => hns (hc ▸ h))]
      exact hf
    · have hu2 : u = mkSeedUser r ∨ u ∈ (seedAux rs (r.user_id :: seen)).1 := by
        simpa [seedAux, h] using hu
      rcases hu2 with rfl | hu2
      · refine ⟨h, r, ?_, rfl⟩
        rw [List.find?_cons_of_pos _ (by simp [mkSeedUser])]
      · obtain ⟨hns, r2, hf, he⟩ := ih (r.user_id :: seen) u hu2
        have hne : u.id ≠ r.user_id := fun hc => hns (by
          rw [hc]; exact List.mem_cons_self _ _)
        refine ⟨fun hc => hns (List.mem_cons_of_mem _ hc), r2, ?_, he⟩
        rw [List.find?_cons_of_neg _ (by
          simp only [decide_eq_true_eq]
          exact fun hc => hne hc.symm)]
        exact hf

theorem seedAux_users_count (rows : List Row) (seen : List String) (id : String) :
    (((seedAux rows seen).1).filter (fun u => u.id = id)).length =
      if id ∉ seen ∧ id ∈ rows.map Row.user_id then 1 else 0 := by
  induction rows generalizing seen with
  | nil => simp [seedAux]
  | cons r rs ih =>
    by_cases h : r.user_id ∈ seen
    · rw [show (seedAux (r :: rs) seen).1 = (seedAux rs seen).1 from by
        simp [seedAux, h]]
      rw [ih seen]
      by_cases hs : id ∈ seen
      · simp [hs]
      · by_cases hr : id = r.user_id
        · exact absurd (hr ▸ h) hs
        · simp [hs, hr]
    · rw [show (seedAux (r :: rs) seen).1 = mkSeedUser r :: (seedAux rs (r.user_id :: seen)).1 from by
        simp [seedAux, h]]
      by_cases hr : id = r.user_id
      · rw [List.filter_cons_of_pos (by simp [mkSeedUser, hr])]
        rw [List.length_cons, ih (r.user_id :: seen)]
        rw [if_neg (by
          rintro ⟨h1, _⟩
          exact h1 (by rw [hr]; exact List.mem_cons_self _ _))]
        rw [if_pos ⟨hr ▸ h, by simp [hr]⟩]
      · rw [List.filter_cons_of_neg (by
          simp only [decide_eq_true_eq, mkSeedUser]
          exact fun hc => hr hc.symm)]
        rw [ih (r.user_id :: seen)]
        apply if_congr _ rfl rfl
        constructor
        · rintro ⟨h1, h2⟩
          exact ⟨fun hs => h1 (List.mem_cons_of_mem _ hs),
            by simp; exact Or.inr (by simpa using h2)⟩
        · rintro ⟨h1, h2⟩
          rw [List.map_cons] at h2
          rcases List.mem_cons.mp h2 with hc | hc
          · exact absurd hc hr
          · exact ⟨by
              intro hm
              rcases List.mem_cons.mp hm with hc2 | hc2
              · exact hr hc2
              · exact h1 hc2, hc⟩

/-- Claim C9: one seed run creates exactly one `User` per distinct
`user_id` (fields from the first row with that id) and exactly one
`Location` per CSV row, carrying that row's `user_id`. -/
theorem seed_spec (rows : List Row) :
    (∀ id : String, (((seed rows).1).filter (fun u => u.id = id)).length =
      if id ∈ rows.map Row.user_id then 1 else 0) ∧
    (∀ u ∈ (seed rows).1, ∃ r, rows.find? (fun r => r.user_id = u.id) = some r ∧
      u = mkSeedUser r) ∧
    (seed rows).2 = rows.map mkSeedLoc := by
  refine ⟨?_, ?_, seedAux_locs rows []⟩
  · intro id
    rw [seed, seedAux_users_count rows [] id]
    simp
  · intro u hu
    exact (seedAux_users_mem rows [] u hu).2

/-- Instantiation of `seed_spec` on a two-row CSV sharing one `user_id`. -/
theorem seed_spec_witness :
    ((seed [row1, row2]).1.filter (fun u => u.id = "1")).length = 1 := by
  rw [(seed_spec [row1, row2]).1 "1"]
  decide

/-! ## Claim C2 -/

theorem pySplitAux_no_sep (sep : Char) (l : List Char) (h : sep ∉ l) :
    ∀ (acc : List Char) (k : ℕ), pySplitAux sep l acc k = [acc.reverse ++ l] := by
  induction l with
  | nil => intro acc k; simp [pySplitAux]
  | cons c cs ih =>
    intro acc k
    have hc : c ≠ sep := fun hcc => h (hcc ▸ List.mem_cons_self _ _)
    have hcs : sep ∉ cs := fun hm => h (List.mem_cons_of_mem _ hm)
    cases k with
    | zero => simp [pySplitAux, ih hcs]
    | succ k2 => simp [pySplitAux, hc, ih hcs]

theorem pySplitAux_found (sep : Char) (la lb : List Char) (h : sep ∉ la) :
    ∀ (acc : List Char) (k : ℕ),
      pySplitAux sep (la ++ sep :: lb) acc (k + 1) =
        (acc.reverse ++ la) :: pySplitAux sep lb [] k := by
  induction la with
  | nil => intro acc k; simp [pySplitAux]
  | cons c cs ih =>
    intro acc k
    have hc : c ≠ sep := fun hcc => h (hcc ▸ List.mem_cons_self _ _)
    have hcs : sep ∉ cs := fun hm => h (List.mem_cons_of_mem _ hm)
    simp [pySplitAux, hc, ih hcs]

theorem pySplitAux_length (sep : Char) (l : List Char) :
    ∀ (acc : List Char) (k : ℕ),
      (pySplitAux sep l acc k).length = min (l.count sep + 1) (k + 1) := by
  induction l with
  | nil => intro acc k; simp [pySplitAux]
  | cons c cs ih =>
    intro acc k
    cases k with
    | zero =>
      rw [show pySplitAux sep (c :: cs) acc 0 = pySplitAux sep cs (c :: acc) 0 from rfl,
        ih (c :: acc) 0]
      omega
    | succ k2 =>
      by_cases hc : c = sep
      · subst hc
        rw [show pySplitAux c (c :: cs) acc (k2 + 1)
            = acc.reverse :: pySplitAux c cs [] k2 from by simp [pySplitAux],
          List.length_cons, ih [] k2, List.count_cons_self]
        omega
      · rw [show pySplitAux sep (c :: cs) acc (k2 + 1)
            = pySplitAux sep cs (c :: acc) (k2 + 1) from by simp [pySplitAux, hc],
          ih (c :: acc) (k2 + 1),
          List.count_cons_of_ne (fun hx => hc hx.symm)]

theorem splitComma2_length (s : String) :
    (splitComma2 s).length = min (s.data.count ',' + 1) 3 :=
  pySplitAux_length ',' s.data [] 2

theorem mem_dropWhile_of_neg {p : Char → Bool} {c : Char} {l : List Char}
    (hm : c ∈ l) (hp : p c = false) : c ∈ l.dropWhile p := by
  induction l with
  | nil => cases hm
  | cons a t ih =>
    rw [List.dropWhile_cons]
    rcases List.mem_cons.mp hm with rfl | hm2
    · rw [hp]
      simp
    · by_cases ha : p a = true
      · rw [if_pos ha]
        exact ih hm2
      · rw [if_neg ha]
        exact List.mem_cons_of_mem _ hm2

theorem mem_pyStrip {c : Char} {l : List Char} (hm : c ∈ l) (hs : pySpace c = false) :
    c ∈ pyStrip l := by
  unfold pyStrip
  rw [List.mem_reverse]
  refine mem_dropWhile_of_neg ?_ hs
  rw [List.mem_reverse]
  exact mem_dropWhile_of_neg hm hs

theorem readSign_snd_cases (l : List Char) :
    (readSign l).2 = l ∨ ∃ s, (s = '+' ∨ s = '-') ∧ l = s :: (readSign l).2 := by
  unfold readSign
  split
  · exact Or.inr ⟨'+', Or.inl rfl, rfl⟩
  · exact Or.inr ⟨'-', Or.inr rfl, rfl⟩
  · exact Or.inl rfl

theorem mem_readSign_snd {l : List Char} {c : Char} (hm : c ∈ l)
    (h1 : c ≠ '+') (h2 : c ≠ '-') : c ∈ (readSign l).2 := by
  rcases readSign_snd_cases l with h | ⟨s, hs, hl⟩
  · rw [h]; exact hm
  · rw [hl] at hm
    rcases List.mem_cons.mp hm with rfl | hm2
    · rcases hs with rfl | rfl
      · exact absurd rfl h1
      · exact absurd rfl h2
    · exact hm2

theorem parseExp_no_comma {r : List Char} {e : ℤ} (h : parseExp r = some e) :
    ',' ∉ r := by
  intro hm
  cases r with
  | nil => cases hm
  | cons c rest =>
    simp only [parseExp] at h
    by_cases hc : c = 'e' ∨ c = 'E'
    · rw [if_pos hc] at h
      by_cases hcond : (readSign rest).2.takeWhile isDigitCh = [] ∨
          (readSign rest).2.dropWhile isDigitCh ≠ []
      · rw [if_pos hcond] at h
        cases h
      · push_neg at hcond
        obtain ⟨hds, hrest⟩ := hcond
        rcases List.mem_cons.mp hm with heq | hm2
        · rw [← heq] at hc
          exact absurd hc (by decide)
        · have hmem := mem_readSign_snd hm2 (by decide) (by decide)
          have hall : (readSign rest).2 = (readSign rest).2.takeWhile isDigitCh := by
            conv_lhs => rw [← List.takeWhile_append_dropWhile isDigitCh (readSign rest).2]
            rw [hrest, List.append_nil]
          rw [hall] at hmem
          exact absurd (List.mem_takeWhile_imp hmem) (by decide)
    · rw [if_neg hc] at h
      cases h

theorem parseUnsigned_no_comma {m : List Char} {v : ℚ} (h : parseUnsigned m = some v) :
    ',' ∉ m := by
  intro hm
  have hsplit := List.takeWhile_append_dropWhile isDigitCh m
  have hm2 : ',' ∈ m.takeWhile isDigitCh ++ m.dropWhile isDigitCh := by
    rw [hsplit]
    exact hm
  rcases List.mem_append.mp hm2 with hip | hr1
  · exact absurd (List.mem_takeWhile_imp hip) (by decide)
  · unfold parseUnsigned at h
    split at h
    · rename_i r2 heq
      rw [heq] at hr1
      rcases List.mem_cons.mp hr1 with hdot | hm3
      · exact absurd hdot (by decide)
      · have hsplit2 := List.takeWhile_append_dropWhile isDigitCh r2
        have hm4 : ',' ∈ r2.takeWhile isDigitCh ++ r2.dropWhile isDigitCh := by
          rw [hsplit2]
          exact hm3
        rcases List.mem_append.mp hm4 with hfp | hr3
        · exact absurd (List.mem_takeWhile_imp hfp) (by decide)
        · by_cases hcond : m.takeWhile isDigitCh = [] ∧ r2.takeWhile isDigitCh = []
          · rw [if_pos hcond] at h
            cases h
          · rw [if_neg hcond] at h
            cases hpe : parseExp (r2.dropWhile isDigitCh) with
            | none => rw [hpe] at h; cases h
            | some e2 => exact parseExp_no_comma hpe hr3
    · by_cases hip0 : m.takeWhile isDigitCh = []
      · rw [if_pos hip0] at h
        cases h
      · rw [if_neg hip0] at h
        cases hpe : parseExp (m.dropWhile isDigitCh) with
        | none => rw [hpe] at h; cases h
        | some e2 => exact parseExp_no_comma hpe hr1

theorem pyFloat?_no_comma {l : List Char} {x : ℚ} (h : pyFloat? l = some x) :
    ',' ∉ l := by
  intro hm
  have h1 : ',' ∈ pyStrip l := mem_pyStrip hm (by decide)
  have h2 : ',' ∈ (readSign (pyStrip l)).2 := mem_readSign_snd h1 (by decide) (by decide)
  unfold pyFloat? at h
  cases hpu : parseUnsigned (readSign (pyStrip l)).2 with
  | none => rw [hpu] at h; cases h
  | some v => exact parseUnsigned_no_comma hpu h2


/-- Claim C2: a string of the form `"lat,lng"` whose two fields are valid
numeric literals (optionally with whitespace after the comma) parses to
exactly that `(lat, lng)` pair; an input without exactly two
comma-separated fields, or with a non-numeric field, parses to the invalid
result `none` (the code's `(None, None)`). -/
theorem parse_lat_lng_spec :
    (∀ la lb : String, ∀ x y : ℚ,
      pyFloat? la.data = some x → pyFloat? lb.data = some y →
      parse_lat_lng (la ++ "," ++ lb) = some (x, y)) ∧
    (∀ s : String, s.data.count ',' ≠ 1 → parse_lat_lng s = none) ∧
    (∀ s : String, ∀ a b : List Char, splitComma2 s = [a, b] →
      pyFloat? a = none ∨ pyFloat? b = none → parse_lat_lng s = none) := by
  refine ⟨?_, ?_, ?_⟩
  · intro la lb x y hx hy
    have hla : ',' ∉ la.data := pyFloat?_no_comma hx
    have hlb : ',' ∉ lb.data := pyFloat?_no_comma hy
    have hdata : (la ++ "," ++ lb).data = la.data ++ ',' :: lb.data := by
      simp
    unfold parse_lat_lng splitComma2
    rw [hdata, pySplitAux_found ',' la.data lb.data hla [] 1,
      pySplitAux_no_sep ',' lb.data hlb [] 1]
    simp [hx, hy]
  · intro s hc
    have hlen := splitComma2_length s
    unfold parse_lat_lng
    rcases hL : splitComma2 s with _ | ⟨a, _ | ⟨b, _ | ⟨c, L⟩⟩⟩
    · rfl
    · rfl
    · rw [hL] at hlen
      simp at hlen
      omega
    · rfl
  · intro s a b hL hor
    unfold parse_lat_lng
    rw [hL]
    rcases hor with h | h
    · cases hb : pyFloat? b <;> simp [h, hb]
    · cases ha : pyFloat? a <;> simp [h, ha]

/-- Instantiation of `parse_lat_lng_spec` on the doctest input
`"50.5, 110.2"` (a space after the comma). -/
theorem parse_lat_lng_spec_witness :
    pyFloat? ("50.5" : String).data = some (101 / 2) ∧
      pyFloat? (" 110.2" : String).data = some (551 / 5) ∧
      parse_lat_lng ("50.5" ++ "," ++ " 110.2") = some (101 / 2, 551 / 5) := by
  have h1 : pyFloat? ("50.5" : String).data = some (101 / 2) := by
    simp [pyFloat?, pyStrip, readSign, parseUnsigned, parseExp, digitsVal,
      isDigitCh, pySpace]
    norm_num
  have h2 : pyFloat? (" 110.2" : String).data = some (551 / 5) := by
    simp [pyFloat?, pyStrip, readSign, parseUnsigned, parseExp, digitsVal,
      isDigitCh, pySpace]
    norm_num
  exact ⟨h1, h2, parse_lat_lng_spec.1 "50.5" " 110.2" _ _ h1 h2⟩

end UserSearch
